import Mathlib

/-!
A shallow embedding of `src/scripts/azure_snapshot_cleanup.py`
(`AzureSnapshotManager`): the resource-id validation and existence cache
(`disk_exists`), the snapshot scanner (`find_orphaned_snapshots`), and the
deletion executor (`delete_orphaned_snapshots`), together with proofs about
their behavior.

The Azure SDK collaborators (subscription listing, snapshot listing, disk
lookup, snapshot deletion) are modelled as a pure environment `Env`.  The
manager's mutable attributes `disk_cache` and `orphaned_snapshots` are modelled
as an explicit state `ManagerState` threaded through the operations.  Network
calls made by `disk_exists` and by the deletion loop are recorded as `ApiCall`
traces so that "no collaborator call is made" is a provable statement.
Python exceptions are modelled explicitly: `AzureError` outcomes are values of
the collaborator result types (the code catches them), while the unguarded
list indexing `snapshot.id.split('/')[4]` is modelled as a `Fatal.indexError`
that no handler in the function catches.
-/

namespace SnapshotCleanup

/-- Models Python's `s.split('/')` on a character list:
splitting on every `'/'`, keeping empty segments. -/
def splitSlashAux : List Char → List Char → List String
  | [], acc => [String.mk acc.reverse]
  | c :: cs, acc =>
    if c = '/' then String.mk acc.reverse :: splitSlashAux cs []
    else splitSlashAux cs (c :: acc)

/-- Models Python's `s.split('/')`: `""` yields `[""]`, leading/trailing and
repeated separators yield empty segments, exactly as `str.split` with an
explicit separator does. -/
def splitSlash (s : String) : List String :=
  splitSlashAux s.data []

/-- A subscription as returned by `get_subscriptions`:
`{'id': ..., 'name': ...}`. -/
structure Subscription where
  id : String
  name : String
deriving DecidableEq, Repr

/-- The `creation_data` attribute of a listed snapshot.  `sourceResourceId`
is `none` when the `source_resource_id` attribute is absent or `None`
(both make the Python truthiness test fail the same way). -/
structure CreationData where
  sourceResourceId : Option String
deriving DecidableEq, Repr

/-- A timestamp as carried by `snapshot.time_created`
(rendered by `strftime('%Y-%m-%d %H:%M:%S UTC')`). -/
structure DateTime where
  year : Nat
  month : Nat
  day : Nat
  hour : Nat
  minute : Nat
  second : Nat
deriving DecidableEq, Repr

/-- A snapshot object as yielded by `compute_client.snapshots.list()`.
Outer `Option` on `creationData`, `timeCreated` and `tags` models
`hasattr(...)` being false; the inner `Option` on `timeCreated` and `tags`
models the attribute being present but `None`. -/
structure Snapshot where
  id : String
  name : String
  creationData : Option CreationData
  diskSizeGb : Option Int
  timeCreated : Option (Option DateTime)
  tags : Option (Option (List (String × String)))
deriving DecidableEq, Repr

/-- Outcome of `compute_client.disks.get(rg, name)`.  Both `notFound` and
`fault` are raised as `AzureError` in the source (a not-found response is an
`AzureError` subclass); they are distinguished here because the spec
distinguishes them. -/
inductive DiskLookupOutcome where
  | found
  | notFound
  | fault
deriving DecidableEq, Repr

/-- A network call against the provider, recorded in traces. -/
inductive ApiCall where
  | disksGet (subscriptionId resourceGroup diskName : String)
  | beginDelete (subscriptionId resourceGroup snapshotName : String)
deriving DecidableEq, Repr

/-- An orphaned-snapshot record, the dict literal built in
`find_orphaned_snapshots`. -/
structure OrphanedSnapshot where
  subscription_id : String
  subscription_name : String
  resource_group : String
  name : String
  id : String
  source_disk_id : String
  size_gb : Int
  created_time : String
  tags : List (String × String)
deriving DecidableEq, Repr

/-- The manager's mutable attributes relevant to the core logic:
`self.disk_cache` (a dict modelled as an association list whose most recent
insertion shadows older entries, matching dict lookup) and
`self.orphaned_snapshots`. -/
structure ManagerState where
  diskCache : List (String × Bool)
  orphanedSnapshots : List OrphanedSnapshot
deriving DecidableEq, Repr

/-- The state set up by `__init__`: empty cache, empty accumulator. -/
def initialState : ManagerState := ⟨[], []⟩

/-- The pure environment standing for the Azure collaborators:
subscription listing, per-subscription snapshot listing (which may raise
`AzureError`, modelled as `Except.error` with the message), disk lookup, and
snapshot deletion (begin_delete + wait, which may raise `AzureError`). -/
structure Env where
  subscriptions : List Subscription
  listSnapshots : String → Except String (List Snapshot)
  getDisk : String → String → String → DiskLookupOutcome
  beginDelete : String → String → String → Except String Unit

/-- `get_subscriptions` in the all-subscriptions configuration
(no specific subscription id given): returns the list the subscription
client reports. -/
def get_subscriptions (env : Env) : List Subscription :=
  env.subscriptions

/-- The cache key `f"{subscription_id}:{source_resource_id}"`. -/
def cacheKey (subscriptionId sourceResourceId : String) : String :=
  subscriptionId ++ ":" ++ sourceResourceId

/-- Dict lookup on the association-list model of `self.disk_cache`. -/
def lookupCache : List (String × Bool) → String → Option Bool
  | [], _ => none
  | (k, v) :: rest, key => if k = key then some v else lookupCache rest key

/-- Result of one `disk_exists` call: the returned boolean, the manager state
after the call, and the provider calls it made. -/
structure ExistsResult where
  result : Bool
  state : ManagerState
  calls : List ApiCall
deriving DecidableEq, Repr

/-- `AzureSnapshotManager.disk_exists`: cache hit returns the cached value with
no network call; on a miss the id is split on `'/'` and structurally
validated (`len(parts) < 9 or parts[6] != 'Microsoft.Compute' or
parts[7] != 'disks'` caches and returns `False`); otherwise
`disks.get(parts[4], parts[8])` is called and `except AzureError` makes any
raising outcome — not-found or any other fault — cache and return `False`. -/
def disk_exists (env : Env) (st : ManagerState)
    (subscriptionId sourceResourceId : String) : ExistsResult :=
  let key := cacheKey subscriptionId sourceResourceId
  match lookupCache st.diskCache key with
  | some v => ⟨v, st, []⟩
  | none =>
    let parts := splitSlash sourceResourceId
    if parts.length < 9 ∨ parts.getD 6 "" ≠ "Microsoft.Compute" ∨
        parts.getD 7 "" ≠ "disks" then
      ⟨false, { st with diskCache := (key, false) :: st.diskCache }, []⟩
    else
      let resourceGroup := parts.getD 4 ""
      let diskName := parts.getD 8 ""
      match env.getDisk subscriptionId resourceGroup diskName with
      | .found =>
          ⟨true, { st with diskCache := (key, true) :: st.diskCache },
            [.disksGet subscriptionId resourceGroup diskName]⟩
      | .notFound =>
          ⟨false, { st with diskCache := (key, false) :: st.diskCache },
            [.disksGet subscriptionId resourceGroup diskName]⟩
      | .fault =>
          ⟨false, { st with diskCache := (key, false) :: st.diskCache },
            [.disksGet subscriptionId resourceGroup diskName]⟩

/-- The guard
`hasattr(snapshot, 'creation_data') and hasattr(..., 'source_resource_id')
and snapshot.creation_data.source_resource_id`: returns the source-disk id
exactly when the attribute chain exists and the value is truthy (a non-empty
string). -/
def truthySourceRef (snap : Snapshot) : Option String :=
  match snap.creationData with
  | none => none
  | some cd =>
    match cd.sourceResourceId with
    | none => none
    | some s => if s = "" then none else some s

/-- Zero-padding to two digits, as `strftime` does for `%m %d %H %M %S`. -/
def pad2 (n : Nat) : String :=
  if n < 10 then "0" ++ toString n else toString n

/-- Zero-padding to four digits, as `strftime` does for `%Y`. -/
def pad4 (n : Nat) : String :=
  if n < 10 then "000" ++ toString n
  else if n < 100 then "00" ++ toString n
  else if n < 1000 then "0" ++ toString n
  else toString n

/-- `time_created.strftime('%Y-%m-%d %H:%M:%S UTC')`. -/
def strftimeUTC (t : DateTime) : String :=
  pad4 t.year ++ "-" ++ pad2 t.month ++ "-" ++ pad2 t.day ++ " " ++
    pad2 t.hour ++ ":" ++ pad2 t.minute ++ ":" ++ pad2 t.second ++ " UTC"

/-- The `created_time` computation: `"Unknown"` when the `time_created`
attribute is absent or `None`, else the formatted timestamp. -/
def formatCreatedTime : Option (Option DateTime) → String
  | some (some t) => strftimeUTC t
  | _ => "Unknown"

/-- The `tags` computation:
`snapshot.tags if hasattr(snapshot, 'tags') and snapshot.tags else {}`.
(An empty dict is falsy in Python, hence also mapped to the empty mapping,
which coincides with keeping it.) -/
def normalizeTags : Option (Option (List (String × String))) → List (String × String)
  | some (some l) => l
  | _ => []

/-- The uncaught abort: `snapshot.id.split('/')[4]` raises `IndexError` when
the id has fewer than 5 segments, and `IndexError` is not an `AzureError`, so
no handler in `find_orphaned_snapshots` catches it. -/
inductive Fatal where
  | indexError
deriving DecidableEq, Repr

/-- The body of the per-snapshot loop in `find_orphaned_snapshots`: skip when
the source-disk reference is absent or falsy; otherwise consult
`disk_exists`, and when it returns `False` build the orphan record (defaulted
size, formatted-or-`"Unknown"` time, tags-or-empty,
`resource_group = snapshot.id.split('/')[4]`) and append it.  The unguarded
index raises `Fatal.indexError` when the snapshot's own id has fewer than 5
`'/'`-separated segments. -/
def process_snapshot (env : Env) (sub : Subscription) (st : ManagerState)
    (snap : Snapshot) : Except Fatal ManagerState :=
  match truthySourceRef snap with
  | none => .ok st
  | some sourceDiskId =>
    let r := disk_exists env st sub.id sourceDiskId
    if r.result then .ok r.state
    else
      let idParts := splitSlash snap.id
      if 4 < idParts.length then
        let record : OrphanedSnapshot :=
          { subscription_id := sub.id
            subscription_name := sub.name
            resource_group := idParts.getD 4 ""
            name := snap.name
            id := snap.id
            source_disk_id := sourceDiskId
            size_gb := snap.diskSizeGb.getD 0
            created_time := formatCreatedTime snap.timeCreated
            tags := normalizeTags snap.tags }
        .ok { r.state with
                orphanedSnapshots := r.state.orphanedSnapshots ++ [record] }
      else .error .indexError

/-- The per-snapshot loop over one subscription's listing. -/
def process_snapshots (env : Env) (sub : Subscription) :
    ManagerState → List Snapshot → Except Fatal ManagerState
  | st, [] => .ok st
  | st, snap :: rest =>
    match process_snapshot env sub st snap with
    | .error e => .error e
    | .ok st2 => process_snapshots env sub st2 rest

/-- One iteration of the subscription loop: the `try` block lists the
snapshots and runs the per-snapshot loop; `except AzureError` catches a
listing failure, logs it, and leaves the state untouched.  A `Fatal` abort
from the loop body is not an `AzureError` and escapes. -/
def scan_subscription (env : Env) (st : ManagerState) (sub : Subscription) :
    Except Fatal ManagerState :=
  match env.listSnapshots sub.id with
  | .error _ => .ok st
  | .ok snaps => process_snapshots env sub st snaps

/-- The subscription loop of `find_orphaned_snapshots`. -/
def scan_subscriptions (env : Env) :
    ManagerState → List Subscription → Except Fatal ManagerState
  | st, [] => .ok st
  | st, sub :: rest =>
    match scan_subscription env st sub with
    | .error e => .error e
    | .ok st2 => scan_subscriptions env st2 rest

/-- `AzureSnapshotManager.find_orphaned_snapshots`: resets
`self.orphaned_snapshots = []` (but not `self.disk_cache`), scans every
subscription, and returns the accumulated orphan list together with the
manager state after the call. -/
def find_orphaned_snapshots (env : Env) (st : ManagerState) :
    Except Fatal (List OrphanedSnapshot × ManagerState) :=
  match scan_subscriptions env ⟨st.diskCache, []⟩ (get_subscriptions env) with
  | .error e => .error e
  | .ok st1 => .ok (st1.orphanedSnapshots, st1)

/-- The deletion loop of `delete_orphaned_snapshots`, with the
`successful`/`failed` counters threaded and every provider call recorded.
In dry-run mode the record is only counted as successful; otherwise
`begin_delete(...).wait()` is issued and `except AzureError` turns a fault
into a `failed` increment, the loop continuing either way. -/
def delete_batch (env : Env) (dry_run : Bool) :
    List OrphanedSnapshot → Nat → Nat → (Nat × Nat) × List ApiCall
  | [], successful, failed => ((successful, failed), [])
  | snap :: rest, successful, failed =>
    if dry_run then delete_batch env dry_run rest (successful + 1) failed
    else
      let call := ApiCall.beginDelete snap.subscription_id snap.resource_group
        snap.name
      match env.beginDelete snap.subscription_id snap.resource_group snap.name with
      | .ok _ =>
        let r := delete_batch env dry_run rest (successful + 1) failed
        (r.1, call :: r.2)
      | .error _ =>
        let r := delete_batch env dry_run rest successful (failed + 1)
        (r.1, call :: r.2)

/-- `AzureSnapshotManager.delete_orphaned_snapshots`: an empty
`self.orphaned_snapshots` returns `(0, 0)` at once; otherwise the deletion
loop runs over the accumulated records. -/
def delete_orphaned_snapshots (env : Env) (st : ManagerState)
    (dry_run : Bool) : (Nat × Nat) × List ApiCall :=
  if st.orphanedSnapshots = [] then ((0, 0), [])
  else delete_batch env dry_run st.orphanedSnapshots 0 0

/-- Whether the delete collaborator succeeds on a given record. -/
def deleteSucceeds (env : Env) (r : OrphanedSnapshot) : Bool :=
  match env.beginDelete r.subscription_id r.resource_group r.name with
  | .ok _ => true
  | .error _ => false

/-- The provider call the deletion loop issues for a record. -/
def deleteCall (r : OrphanedSnapshot) : ApiCall :=
  .beginDelete r.subscription_id r.resource_group r.name

/-! ## Helper lemmas -/

/-- A cache hit returns the cached value, leaves the state unchanged and
makes no provider call, whatever the environment. -/
theorem disk_exists_cache_hit (env : Env) (st : ManagerState)
    (subscriptionId sourceResourceId : String) (v : Bool)
    (h : lookupCache st.diskCache (cacheKey subscriptionId sourceResourceId) =
      some v) :
    disk_exists env st subscriptionId sourceResourceId = ⟨v, st, []⟩ := by
  simp only [disk_exists, h]

/-- The dry-run deletion loop counts every record as successful and issues no
provider call. -/
theorem delete_batch_dry (env : Env) :
    ∀ (l : List OrphanedSnapshot) (s f : Nat),
      delete_batch env true l s f = ((s + l.length, f), []) := by
  intro l
  induction l with
  | nil => intro s f; simp [delete_batch]
  | cons snap rest ih =>
    intro s f
    simp only [delete_batch, if_true, ih, List.length_cons]
    refine congrArg (fun n => ((n, f), [])) ?_
    omega

/-- The real deletion loop: successes and failures are counted record by
record, and exactly one provider call is issued per record, in list order. -/
theorem delete_batch_real (env : Env) :
    ∀ (l : List OrphanedSnapshot) (s f : Nat),
      delete_batch env false l s f =
        ((s + (l.filter (deleteSucceeds env)).length,
          f + (l.filter (fun r => !deleteSucceeds env r)).length),
         l.map deleteCall) := by
  intro l
  induction l with
  | nil => intro s f; simp [delete_batch]
  | cons snap rest ih =>
    intro s f
    simp only [delete_batch, Bool.false_eq_true, if_false, List.map_cons]
    cases h : env.beginDelete snap.subscription_id snap.resource_group
        snap.name with
    | ok u =>
      have hs : deleteSucceeds env snap = true := by
        simp [deleteSucceeds, h]
      simp only [ih, List.filter_cons, hs, Bool.not_true, if_true, if_false,
        List.length_cons, deleteCall]
      refine congrArg (fun p => ((p, f + _), _ :: rest.map deleteCall)) ?_
      omega
    | error e =>
      have hs : deleteSucceeds env snap = false := by
        simp [deleteSucceeds, h]
      simp only [ih, List.filter_cons, hs, Bool.not_false, if_true, if_false,
        List.length_cons, deleteCall]
      refine congrArg (fun p => ((s + _, p), _ :: rest.map deleteCall)) ?_
      omega

/-- Scanning an appended subscription list is scanning the first part and,
when it does not abort, scanning the second from the resulting state. -/
theorem scan_subscriptions_append (env : Env) :
    ∀ (xs ys : List Subscription) (st : ManagerState),
      scan_subscriptions env st (xs ++ ys) =
        match scan_subscriptions env st xs with
        | .error e => .error e
        | .ok st2 => scan_subscriptions env st2 ys := by
  intro xs
  induction xs with
  | nil => intro ys st; simp [scan_subscriptions]
  | cons sub rest ih =>
    intro ys st
    simp only [List.cons_append, scan_subscriptions]
    cases scan_subscription env st sub with
    | error e => rfl
    | ok st2 => exact ih ys st2

/-! ## Concrete fixtures used by witnesses and counterexamples -/

/-- A structurally valid disk resource id. -/
def diskIdD1 : String :=
  "/subscriptions/s/resourceGroups/rg/providers/Microsoft.Compute/disks/d1"

/-- A snapshot's own resource id (segment 4 is `"rg"`). -/
def snapIdGood : String :=
  "/subscriptions/s/resourceGroups/rg/providers/Microsoft.Compute/snapshots/snap1"

/-- A listed snapshot referencing `diskIdD1`, with size, timestamp and tags
all absent. -/
def snapGood : Snapshot :=
  ⟨snapIdGood, "snap1", some ⟨some diskIdD1⟩, none, none, none⟩

/-- A listed snapshot whose own id has a single `'/'`-segment but which still
carries a (malformed) source-disk reference. -/
def snapShortId : Snapshot :=
  ⟨"short", "snap2", some ⟨some "bad-id"⟩, none, none, none⟩

def subS : Subscription := ⟨"s", "S"⟩

def subT : Subscription := ⟨"t", "T"⟩

/-- Provider in which every disk lookup reports the disk present. -/
def envFound : Env :=
  ⟨[subS], fun _ => .ok [snapGood], fun _ _ _ => .found, fun _ _ _ => .ok ()⟩

/-- Provider in which every disk lookup reports a definitive not-found. -/
def envNotFound : Env :=
  ⟨[subS], fun _ => .ok [snapGood], fun _ _ _ => .notFound, fun _ _ _ => .ok ()⟩

/-- Provider in which every disk lookup fails with a non-not-found fault. -/
def envFault : Env :=
  ⟨[subS], fun _ => .ok [snapGood], fun _ _ _ => .fault, fun _ _ _ => .ok ()⟩

/-- Two subscriptions; listing fails for `"s"` and succeeds for `"t"`, and the
referenced disk is definitively absent. -/
def envListFail : Env :=
  ⟨[subS, subT],
   fun i => if i = "s" then .error "boom" else .ok [snapGood],
   fun _ _ _ => .notFound,
   fun _ _ _ => .ok ()⟩

/-- Two subscriptions whose listing yields the short-id snapshot. -/
def envShort : Env :=
  ⟨[subS, subT], fun _ => .ok [snapShortId], fun _ _ _ => .found,
   fun _ _ _ => .ok ()⟩

/-- The orphan record the scanner builds for `snapGood` in subscription
`subS` (defaults applied: size 0, time `"Unknown"`, empty tags). -/
def recGood : OrphanedSnapshot :=
  ⟨"s", "S", "rg", "snap1", snapIdGood, diskIdD1, 0, "Unknown", []⟩

/-- A manager state holding two orphan records, as after a scan. -/
def stTwoOrphans : ManagerState := ⟨[], [recGood, recGood]⟩

/-! ## Claims about the deletion executor -/

/-- C2: for every non-empty orphan list of length N, a dry-run
`delete_orphaned_snapshots` issues no provider call (its call trace is empty,
whatever the delete collaborator would answer) and returns exactly (N, 0):
every record counted as succeeded, none as failed. -/
theorem dry_run_counts_all_no_delete_calls (env : Env) (st : ManagerState)
    (h : st.orphanedSnapshots ≠ []) :
    delete_orphaned_snapshots env st true =
      ((st.orphanedSnapshots.length, 0), []) := by
  unfold delete_orphaned_snapshots
  rw [if_neg h]
  simpa using delete_batch_dry env st.orphanedSnapshots 0 0

/-- Witness for C2 at a concrete two-element orphan list. -/
theorem dry_run_counts_all_no_delete_calls_witness :
    delete_orphaned_snapshots envFound stTwoOrphans true = ((2, 0), []) := by
  have h := dry_run_counts_all_no_delete_calls envFound stTwoOrphans
    (by decide)
  simpa [stTwoOrphans] using h

/-- C3: with dryRun = false over an orphan list of length K, each record's
deletion is attempted independently in list order (the call trace is exactly
one `beginDelete` per record, in order, with no early abort and no retry),
the failed count is the number of records on which the collaborator faults,
the succeeded count is the number on which it succeeds, and
succeeded + failed = K. -/
theorem real_run_independent_per_item (env : Env) (st : ManagerState) :
    (delete_orphaned_snapshots env st false).1.1 +
        (delete_orphaned_snapshots env st false).1.2 =
      st.orphanedSnapshots.length ∧
    (delete_orphaned_snapshots env st false).1.1 =
      (st.orphanedSnapshots.filter (deleteSucceeds env)).length ∧
    (delete_orphaned_snapshots env st false).1.2 =
      (st.orphanedSnapshots.filter (fun r => !deleteSucceeds env r)).length ∧
    (delete_orphaned_snapshots env st false).2 =
      st.orphanedSnapshots.map deleteCall := by
  by_cases h : st.orphanedSnapshots = []
  · simp [delete_orphaned_snapshots, h]
  · have hb := delete_batch_real env st.orphanedSnapshots 0 0
    simp only [delete_orphaned_snapshots, if_neg h, hb, Nat.zero_add]
    constructor
    · exact (List.length_eq_length_filter_add (deleteSucceeds env)).symm
    · simp

/-- C5 counterexample: on the freshly initialized manager (no scan has run,
the accumulator is empty), `delete_orphaned_snapshots` returns the result
(0, 0) with no provider call and raises no error — contradicting the claim
that it fails fast with a defined error rather than returning a result. -/
theorem delete_before_scan_returns_result_cex :
    delete_orphaned_snapshots envFound initialState false = ((0, 0), []) ∧
    delete_orphaned_snapshots envFound initialState true = ((0, 0), []) :=
  ⟨rfl, rfl⟩

/-- C5 (amended): calling `delete_orphaned_snapshots` with an empty orphan
accumulator — in particular before any scan — performs no work (no provider
call) and returns (0, 0); no error is raised. -/
theorem delete_empty_orphans_returns_zero (env : Env) (st : ManagerState)
    (dry_run : Bool) (h : st.orphanedSnapshots = []) :
    delete_orphaned_snapshots env st dry_run = ((0, 0), []) := by
  unfold delete_orphaned_snapshots
  rw [if_pos h]

/-- Witness for the amended C5 on the freshly initialized manager. -/
theorem delete_empty_orphans_returns_zero_witness :
    delete_orphaned_snapshots envNotFound initialState false = ((0, 0), []) :=
  delete_empty_orphans_returns_zero envNotFound initialState false rfl

/-! ## Claims about the existence cache -/

/-- C1 counterexample: with an empty cache and a structurally valid disk id,
a collaborator fault that is NOT a definitive not-found makes `disk_exists`
return false and cache false for the key, and the immediately following call
for the same key answers false from the cache with zero collaborator calls —
so the fault neither propagates as a scope-level failure nor leaves the key
uncached for a later re-attempt, contrary to the claim. -/
theorem disk_exists_fault_caches_false_cex :
    disk_exists envFault initialState "s" diskIdD1 =
      ⟨false, ⟨[(cacheKey "s" diskIdD1, false)], []⟩,
        [.disksGet "s" "rg" "d1"]⟩ ∧
    disk_exists envFault ⟨[(cacheKey "s" diskIdD1, false)], []⟩ "s" diskIdD1 =
      ⟨false, ⟨[(cacheKey "s" diskIdD1, false)], []⟩, []⟩ :=
  ⟨by decide, by decide⟩

/-- C1 (amended): on a cache miss where the identifier parses successfully,
any raising disk lookup — a definitive not-found as well as any other
provider fault — is caught by the `except AzureError` handler, and false is
cached and returned; no fault propagates, and any later call for a state in
which the cached false is visible returns false with no collaborator call,
so the lookup is never re-attempted. -/
theorem disk_exists_nonfound_fault_cached_false (env : Env)
    (st : ManagerState) (subId resId : String)
    (hmiss : lookupCache st.diskCache (cacheKey subId resId) = none)
    (hvalid : ¬((splitSlash resId).length < 9 ∨
      (splitSlash resId).getD 6 "" ≠ "Microsoft.Compute" ∨
      (splitSlash resId).getD 7 "" ≠ "disks"))
    (hraise : env.getDisk subId ((splitSlash resId).getD 4 "")
      ((splitSlash resId).getD 8 "") ≠ .found) :
    disk_exists env st subId resId =
      ⟨false,
       ⟨(cacheKey subId resId, false) :: st.diskCache, st.orphanedSnapshots⟩,
       [.disksGet subId ((splitSlash resId).getD 4 "")
          ((splitSlash resId).getD 8 "")]⟩ ∧
    ∀ (env2 : Env) (st2 : ManagerState),
      lookupCache st2.diskCache (cacheKey subId resId) = some false →
      disk_exists env2 st2 subId resId = ⟨false, st2, []⟩ := by
  refine ⟨?_,
    fun env2 st2 h2 => disk_exists_cache_hit env2 st2 subId resId false h2⟩
  simp only [disk_exists, hmiss, if_neg hvalid]
  cases hg : env.getDisk subId ((splitSlash resId).getD 4 "")
      ((splitSlash resId).getD 8 "") with
  | found => exact absurd hg hraise
  | notFound => rfl
  | fault => rfl

/-- Witness for the amended C1: a non-not-found fault on a valid id is cached
as false and the next call for the key stays local. -/
theorem disk_exists_nonfound_fault_cached_false_witness :
    disk_exists envFault initialState "t" diskIdD1 =
      ⟨false, ⟨[(cacheKey "t" diskIdD1, false)], []⟩,
        [.disksGet "t" "rg" "d1"]⟩ ∧
    disk_exists envFault ⟨[(cacheKey "t" diskIdD1, false)], []⟩ "t" diskIdD1 =
      ⟨false, ⟨[(cacheKey "t" diskIdD1, false)], []⟩, []⟩ := by
  have h := disk_exists_nonfound_fault_cached_false envFault initialState "t"
    diskIdD1 rfl (by decide) (by decide)
  exact ⟨h.1, h.2 envFault ⟨[(cacheKey "t" diskIdD1, false)], []⟩ (by decide)⟩

/-- C7: a source-disk identifier failing structural validation (fewer than 9
segments, or segment 6 not `Microsoft.Compute`, or segment 7 not `disks`)
makes `disk_exists` return false with no collaborator call and cache false
for the key, and every call made while the cached false is visible returns
it with no collaborator call. -/
theorem invalid_id_returns_false_and_caches (env : Env) (st : ManagerState)
    (subId resId : String)
    (hmiss : lookupCache st.diskCache (cacheKey subId resId) = none)
    (hinvalid : (splitSlash resId).length < 9 ∨
      (splitSlash resId).getD 6 "" ≠ "Microsoft.Compute" ∨
      (splitSlash resId).getD 7 "" ≠ "disks") :
    disk_exists env st subId resId =
      ⟨false,
       ⟨(cacheKey subId resId, false) :: st.diskCache, st.orphanedSnapshots⟩,
       []⟩ ∧
    ∀ (env2 : Env) (st2 : ManagerState),
      lookupCache st2.diskCache (cacheKey subId resId) = some false →
      disk_exists env2 st2 subId resId = ⟨false, st2, []⟩ := by
  refine ⟨?_,
    fun env2 st2 h2 => disk_exists_cache_hit env2 st2 subId resId false h2⟩
  simp only [disk_exists, hmiss, if_pos hinvalid]

/-- Witness for C7 at the malformed id `"bad-id"`. -/
theorem invalid_id_returns_false_and_caches_witness :
    disk_exists envFound initialState "s" "bad-id" =
      ⟨false, ⟨[(cacheKey "s" "bad-id", false)], []⟩, []⟩ ∧
    disk_exists envFound ⟨[(cacheKey "s" "bad-id", false)], []⟩ "s" "bad-id" =
      ⟨false, ⟨[(cacheKey "s" "bad-id", false)], []⟩, []⟩ := by
  have h := invalid_id_returns_false_and_caches envFound initialState "s"
    "bad-id" rfl (by decide)
  exact ⟨h.1, h.2 envFound ⟨[(cacheKey "s" "bad-id", false)], []⟩ (by decide)⟩

/-! ## Claims about the snapshot scanner -/

/-- A listed snapshot carrying an empty source-disk reference. -/
def snapNoRef : Snapshot := ⟨snapIdGood, "snap3", some ⟨some ""⟩, none, none, none⟩

/-- C6: a snapshot with no source-disk reference (creation_data absent, the
source_resource_id attribute absent or None, or an empty string) is skipped:
the per-snapshot step leaves the manager state — in particular the orphan
accumulator — unchanged, so no record is ever emitted for it. -/
theorem no_source_ref_never_orphaned (env : Env) (sub : Subscription)
    (st : ManagerState) (snap : Snapshot)
    (h : truthySourceRef snap = none) :
    process_snapshot env sub st snap = .ok st := by
  simp only [process_snapshot, h]

/-- Witness for C6 on a snapshot whose source reference is the empty
string. -/
theorem no_source_ref_never_orphaned_witness :
    process_snapshot envFound subS initialState snapNoRef = .ok initialState :=
  no_source_ref_never_orphaned envFound subS initialState snapNoRef (by decide)

/-- C9: every emitted orphan record carries size_gb equal to the listed size
or 0 when the field is absent, created_time equal to the normalized timestamp
or the fixed "Unknown" sentinel when the timestamp is absent or null, tags
equal to the listed mapping or the empty mapping when absent or null, and
resource_group equal to segment index 4 of the snapshot's own full identifier
(not the source-disk identifier) split on '/'. -/
theorem orphan_record_fields (env : Env) (sub : Subscription)
    (st : ManagerState) (snap : Snapshot) (sourceDiskId : String)
    (hsrc : truthySourceRef snap = some sourceDiskId)
    (hnotex : (disk_exists env st sub.id sourceDiskId).result = false)
    (hlen : 4 < (splitSlash snap.id).length) :
    process_snapshot env sub st snap =
      .ok { (disk_exists env st sub.id sourceDiskId).state with
              orphanedSnapshots :=
                (disk_exists env st sub.id sourceDiskId).state.orphanedSnapshots
                  ++ [{ subscription_id := sub.id
                        subscription_name := sub.name
                        resource_group := (splitSlash snap.id).getD 4 ""
                        name := snap.name
                        id := snap.id
                        source_disk_id := sourceDiskId
                        size_gb := match snap.diskSizeGb with
                          | some n => n
                          | none => 0
                        created_time := match snap.timeCreated with
                          | some (some t) => strftimeUTC t
                          | _ => "Unknown"
                        tags := match snap.tags with
                          | some (some l) => l
                          | _ => [] }] } := by
  obtain ⟨sid, sname, scd, ssz, stc, stg⟩ := snap
  simp only [process_snapshot, hsrc, hnotex, Bool.false_eq_true, if_false,
    if_pos hlen]
  rcases ssz with _ | n <;> rcases stc with _ | (_ | t) <;>
    rcases stg with _ | (_ | l) <;>
    simp [formatCreatedTime, normalizeTags]

/-- Witness for C9: `snapGood` (size, timestamp and tags all absent) under a
definitive not-found yields the record with size 0, time "Unknown", empty
tags and resource group `"rg"` taken from the snapshot's own id. -/
theorem orphan_record_fields_witness :
    process_snapshot envNotFound subS initialState snapGood =
      .ok ⟨[(cacheKey "s" diskIdD1, false)], [recGood]⟩ := by
  have h := orphan_record_fields envNotFound subS initialState snapGood
    diskIdD1 (by decide) (by decide) (by decide)
  exact h

deriving instance DecidableEq for Except

/-- The record the scanner builds for `snapGood` when it is listed in
subscription `subT`. -/
def recGoodT : OrphanedSnapshot :=
  ⟨"t", "T", "rg", "snap1", snapIdGood, diskIdD1, 0, "Unknown", []⟩

/-- C4 counterexample: a first run under a provider reporting the source disk
absent ends with the disk cached as nonexistent; a second call on that state,
under the same collaborators now reporting the disk present, still reports
the snapshot orphaned — the stale cached false from the previous call is
reused — while the same call from the fresh initial state reports nothing.
So a call does not start with an empty cache and state from a previous call
does influence the result, contrary to the claim. -/
theorem find_reuses_previous_cache_cex :
    find_orphaned_snapshots envNotFound initialState =
      .ok ([recGood], ⟨[(cacheKey "s" diskIdD1, false)], [recGood]⟩) ∧
    find_orphaned_snapshots envFound
        ⟨[(cacheKey "s" diskIdD1, false)], [recGood]⟩ =
      .ok ([recGood], ⟨[(cacheKey "s" diskIdD1, false)], [recGood]⟩) ∧
    find_orphaned_snapshots envFound initialState =
      .ok ([], ⟨[(cacheKey "s" diskIdD1, true)], []⟩) :=
  ⟨rfl, rfl, rfl⟩

/-- C4 (amended): each call to `find_orphaned_snapshots` resets the orphan
accumulator — the result is the same whatever accumulator the state carries
in — but the existence cache is NOT reset: it persists across calls, and a
stale cached entry from a previous call changes the outcome (a snapshot
whose disk exists again is still reported orphaned when a previous run
cached false for that disk). -/
theorem find_resets_accumulator_not_cache (env : Env) (st : ManagerState) :
    find_orphaned_snapshots env st =
      find_orphaned_snapshots env ⟨st.diskCache, []⟩ ∧
    find_orphaned_snapshots envFound
        ⟨[(cacheKey "s" diskIdD1, false)], [recGood]⟩ ≠
      find_orphaned_snapshots envFound initialState :=
  ⟨rfl, by decide⟩

/-- C8: a scope whose snapshot listing raises is caught at scope level and
contributes nothing — the scope step returns the state unchanged — and the
whole run result is exactly that of the subscription list with that scope
removed, so every other scope is still scanned and contributes its records
normally. -/
theorem listing_failure_scope_isolated (env : Env) (st : ManagerState)
    (pre rest : List Subscription) (sub : Subscription) (e : String)
    (hsubs : env.subscriptions = pre ++ sub :: rest)
    (hfail : env.listSnapshots sub.id = .error e) :
    (∀ st0 : ManagerState, scan_subscription env st0 sub = .ok st0) ∧
    find_orphaned_snapshots env st =
      match scan_subscriptions env ⟨st.diskCache, []⟩ (pre ++ rest) with
      | .error e2 => .error e2
      | .ok st1 => .ok (st1.orphanedSnapshots, st1) := by
  have hskip : ∀ st0 : ManagerState,
      scan_subscription env st0 sub = .ok st0 := by
    intro st0
    unfold scan_subscription
    rw [hfail]
  refine ⟨hskip, ?_⟩
  unfold find_orphaned_snapshots get_subscriptions
  rw [hsubs, scan_subscriptions_append, scan_subscriptions_append]
  cases scan_subscriptions env ⟨st.diskCache, []⟩ pre with
  | error e2 => rfl
  | ok st2 => simp only [scan_subscriptions, hskip st2]

/-- Witness for C8: listing fails for scope "s", scope "t" still contributes
its orphan record. -/
theorem listing_failure_scope_isolated_witness :
    scan_subscription envListFail initialState subS = .ok initialState ∧
    find_orphaned_snapshots envListFail initialState =
      .ok ([recGoodT], ⟨[(cacheKey "t" diskIdD1, false)], [recGoodT]⟩) := by
  have h := listing_failure_scope_isolated envListFail initialState []
    [subT] subS "boom" rfl (by decide)
  exact ⟨h.1 initialState, h.2.trans (by decide)⟩

/-- C10: the record-building step indexes segment 4 of the snapshot's own id
with no length guard, and the scope-level handler catches provider faults
only; a snapshot whose own id has fewer than 5 '/'-separated segments and
whose source disk is classified nonexistent makes the entire run abort with
the uncaught indexing failure — later scopes are never scanned — instead of
the snapshot or its scope being skipped. -/
theorem short_snapshot_id_aborts_run (env : Env) (st : ManagerState)
    (sub : Subscription) (rest : List Subscription) (snap : Snapshot)
    (sourceDiskId : String)
    (hsubs : env.subscriptions = sub :: rest)
    (hlist : env.listSnapshots sub.id = .ok [snap])
    (hsrc : truthySourceRef snap = some sourceDiskId)
    (hnotex :
      (disk_exists env ⟨st.diskCache, []⟩ sub.id sourceDiskId).result = false)
    (hshort : ¬ 4 < (splitSlash snap.id).length) :
    find_orphaned_snapshots env st = .error .indexError := by
  simp only [find_orphaned_snapshots, get_subscriptions, hsubs,
    scan_subscriptions, scan_subscription, hlist, process_snapshots,
    process_snapshot, hsrc, hnotex, Bool.false_eq_true, if_false,
    if_neg hshort]

/-- Witness for C10: a short-id snapshot in the first of two scopes aborts
the whole run. -/
theorem short_snapshot_id_aborts_run_witness :
    find_orphaned_snapshots envShort initialState = .error .indexError :=
  short_snapshot_id_aborts_run envShort initialState subS [subT] snapShortId
    "bad-id" rfl rfl (by decide) (by decide) (by decide)

end SnapshotCleanup
